import Mathlib

/-!
Verification of the device-state reconciliation engine of the wms2mqtt
bridge (src/warema-bridge/srv/index.js, with the modular variants under
src/unnamed and src/warema-bridge/srv/modules).  Each definition is a
shallow embedding of the corresponding JavaScript function; timestamps
(Date.now() values, milliseconds) are modelled as `Int`, JS numbers that
only ever hold integral values as `Int`, and genuinely fractional sensor
values as `Rat`.  A JS field that may be `undefined`/`null` is an
`Option`.  MQTT publishes are collected into explicit lists.
-/

namespace Wms2Mqtt

/-! ### Brightness quantization (index.js `normalizeWaremaBrightness`, lines 85–98) -/

/-- The fixed LED brightness step set `WAREMA_LED_STEPS` (index.js line 49). -/
def WAREMA_LED_STEPS : List Int := [100, 89, 78, 67, 56, 45, 34, 23, 12, 1]

/-- The `for (const s of WAREMA_LED_STEPS)` loop of `normalizeWaremaBrightness`:
`best`/`diff` are the running nearest step and its distance, updated when a
strictly smaller distance is found. -/
def nearestStepGo (v : Int) : List Int → Int → Nat → Int
  | [], best, _ => best
  | s :: rest, best, diff =>
      let d := (v - s).natAbs
      if d < diff then nearestStepGo v rest s d else nearestStepGo v rest best diff

/-- `normalizeWaremaBrightness(v)`: `0` for `v <= 0`, otherwise the nearest
member of `WAREMA_LED_STEPS` (ties keep the earlier-seen step, starting from
`WAREMA_LED_STEPS[0] = 100`). -/
def normalizeWaremaBrightness (v : Int) : Int :=
  if v ≤ 0 then 0
  else nearestStepGo v WAREMA_LED_STEPS 100 (v - 100).natAbs

theorem nearestStepGo_mem (v : Int) :
    ∀ (l : List Int) (best : Int) (diff : Nat),
      nearestStepGo v l best diff = best ∨ nearestStepGo v l best diff ∈ l := by
  intro l
  induction l with
  | nil => intro best diff; exact Or.inl rfl
  | cons s rest ih =>
      intro best diff
      simp only [nearestStepGo]
      by_cases h : (v - s).natAbs < diff
      · simp only [h, if_true]
        rcases ih s (v - s).natAbs with h1 | h1
        · exact Or.inr (by simp [h1])
        · exact Or.inr (by simp [h1])
      · simp only [h, if_false]
        rcases ih best diff with h1 | h1
        · exact Or.inl h1
        · exact Or.inr (by simp [h1])

theorem normalize_mem_steps (v : Int) (hv : 0 < v) :
    normalizeWaremaBrightness v ∈ WAREMA_LED_STEPS := by
  unfold normalizeWaremaBrightness
  rw [if_neg (by omega)]
  rcases nearestStepGo_mem v WAREMA_LED_STEPS 100 (v - 100).natAbs with h | h
  · rw [h]; decide
  · exact h

theorem steps_pos_le : ∀ s ∈ WAREMA_LED_STEPS, 0 < s ∧ s ≤ 100 := by decide

theorem normalize_fixed : ∀ s ∈ WAREMA_LED_STEPS, normalizeWaremaBrightness s = s := by
  decide

theorem normalize_nonneg (v : Int) : 0 ≤ normalizeWaremaBrightness v := by
  unfold normalizeWaremaBrightness
  by_cases h : v ≤ 0
  · simp [h]
  · rw [if_neg h]
    have hm : nearestStepGo v WAREMA_LED_STEPS 100 (v - 100).natAbs ∈ WAREMA_LED_STEPS := by
      rcases nearestStepGo_mem v WAREMA_LED_STEPS 100 (v - 100).natAbs with h1 | h1
      · rw [h1]; decide
      · exact h1
    have := steps_pos_le _ hm
    omega

theorem normalize_le_100 (v : Int) : normalizeWaremaBrightness v ≤ 100 := by
  unfold normalizeWaremaBrightness
  by_cases h : v ≤ 0
  · simp [h]
  · rw [if_neg h]
    have hm : nearestStepGo v WAREMA_LED_STEPS 100 (v - 100).natAbs ∈ WAREMA_LED_STEPS := by
      rcases nearestStepGo_mem v WAREMA_LED_STEPS 100 (v - 100).natAbs with h1 | h1
      · rw [h1]; decide
      · exact h1
    exact (steps_pos_le _ hm).2

/-! ### Weather EMA (index.js `updateEMA`, lines 106–109, and the per-metric
update of `updateWeatherEMA`, lines 111–122) -/

/-- `updateEMA(oldValue, newValue)`: seed exactly on the first observation
(`oldValue` is `undefined`/`null`), otherwise damp with the configured alpha. -/
def updateEMA (alpha : ℚ) (oldValue : Option ℚ) (newValue : ℚ) : ℚ :=
  match oldValue with
  | none => newValue
  | some v => v + alpha * (newValue - v)

/-- Default `WEATHER_EMA_ALPHA` (`parseFloat(process.env.WEATHER_EMA_ALPHA || '0.2')`). -/
def WEATHER_EMA_ALPHA_default : ℚ := 1 / 5

/-- One weather-stats entry (`weatherStats` value: `{ wind, temp, lumen, lastPublish }`,
metrics start as `null`). -/
structure WeatherEntry where
  wind : Option ℚ
  temp : Option ℚ
  lumen : Option ℚ
  lastPublish : Int

/-- Fresh entry created by `updateWeatherEMA` when the sensor is unseen:
`{ wind: null, temp: null, lumen: null, lastPublish: 0 }`. -/
def freshWeatherEntry : WeatherEntry := ⟨none, none, none, 0⟩

/-- A weather broadcast's metric fields (each may be `undefined`). -/
structure WeatherData where
  wind : Option ℚ
  temp : Option ℚ
  lumen : Option ℚ

/-- The per-metric smoothing portion of `updateWeatherEMA`: each defined metric
is pushed through `updateEMA` (index.js lines 119–121). -/
def applyWeatherData (alpha : ℚ) (e : WeatherEntry) (d : WeatherData) : WeatherEntry :=
  { e with
    wind := match d.wind with
      | some r => some (updateEMA alpha e.wind r)
      | none => e.wind
    temp := match d.temp with
      | some r => some (updateEMA alpha e.temp r)
      | none => e.temp
    lumen := match d.lumen with
      | some r => some (updateEMA alpha e.lumen r)
      | none => e.lumen }

/-! ### Rain hysteresis (index.js `updateRainState`, lines 141–178) -/

/-- One `rainState` entry: `{ state, lastChange }`. -/
structure RainEntry where
  state : Bool
  lastChange : Int
  deriving DecidableEq, Repr

/-- A retained publish to the per-sensor rain topic. -/
inductive RainPub
  | rain (isOn : Bool)
  deriving DecidableEq, Repr

/-- `updateRainState(snr, isRaining)` for one sensor, with the MQTT client
connected: returns the new entry and the list of publishes.  A missing entry
commits and publishes immediately; a differing raw reading commits only when
`now - lastChange >= delay`; an agreeing reading refreshes `lastChange`. -/
def updateRainState (RAIN_ON_DELAY RAIN_OFF_DELAY : Int)
    (entry : Option RainEntry) (now : Int) (isRaining : Bool) :
    RainEntry × List RainPub :=
  match entry with
  | none => (⟨isRaining, now⟩, [.rain isRaining])
  | some e =>
      if isRaining ≠ e.state then
        if now - e.lastChange ≥ (if isRaining then RAIN_ON_DELAY else RAIN_OFF_DELAY) then
          (⟨isRaining, now⟩, [.rain isRaining])
        else
          (e, [])
      else
        ({ e with lastChange := now }, [])

/-! ### Raw-message deduplication (index.js `isDuplicateRawMessage`, lines 59–78) -/

/-- Cache key: the template literal is the pair of device id and raw stick
command tag (the JS code joins them as a single string key). -/
abbrev RawKey := String × String

/-- The `rawMessageCache`: key to last-seen timestamp. -/
abbrev RawCache := List (RawKey × Int)

/-- `Map.set` on the cache representation: replace the key's binding. -/
def rawCacheSet (c : RawCache) (k : RawKey) (ts : Int) : RawCache :=
  (k, ts) :: c.filter (fun e => e.1 ≠ k)

/-- `isDuplicateRawMessage(stickCmd, snr)`: a duplicate if the key was seen
within 1000 ms (cache untouched); otherwise record the timestamp and lazily
evict entries older than 10000 ms. -/
def isDuplicateRawMessage (c : RawCache) (now : Int) (k : RawKey) : Bool × RawCache :=
  match c.lookup k with
  | some ts =>
      if now - ts < 1000 then (true, c)
      else
        let c1 := rawCacheSet c k now
        (false, c1.filter (fun e => now - e.2 ≤ 10000))
  | none =>
      let c1 := rawCacheSet c k now
      (false, c1.filter (fun e => now - e.2 ≤ 10000))

/-! ### Device registry records

A JS device object from `devices` (index.js line 39).  Dynamic fields that
may be `undefined` are `Option`s; a freshly created `{ type: t }` object has
every other field absent. -/

structure Dev where
  typ : String
  position : Option Int := none
  tilt : Option Int := none
  lastBrightness : Option Int := none
  lastPublishedBrightness : Option Int := none
  lastPublishTimestamp : Option Int := none
  commandActive : Bool := false
  commandTarget : Option Int := none
  commandStartTime : Option Int := none
  deriving DecidableEq, Repr

/-- The fresh record `{ type: t }`. -/
def freshDev (t : String) : Dev := { typ := t }

/-- The `devices` map. -/
abbrev Registry := List (String × Dev)

def regLookup (r : Registry) (snr : String) : Option Dev := r.lookup snr

def regSet (r : Registry) (snr : String) (d : Dev) : Registry :=
  (snr, d) :: r.filter (fun e => e.1 ≠ snr)

/-- The persisted `ledStateCache` (snr → brightness). -/
abbrev LedCache := List (String × Int)

def ledCacheLookup (c : LedCache) (snr : String) : Option Int := c.lookup snr

def ledCacheSet (c : LedCache) (snr : String) (v : Int) : LedCache :=
  (snr, v) :: c.filter (fun e => e.1 ≠ snr)

/-! ### LED light handling (index.js lines 631–688, 832–858 and the type-28
branch of `callback`, lines 544–584) -/

/-- A publish on the per-device light topics. -/
inductive LightPub
  | brightness (v : Int)
  | lightState (isOn : Bool)
  deriving DecidableEq, Repr

/-- `ensureLedDevice(snr)`: create `{ type: "28" }` when absent, then force
`type = "28"`. -/
def ensureLedDevice (d : Option Dev) : Dev :=
  match d with
  | none => freshDev "28"
  | some dev => { dev with typ := "28" }

/-- Result of a LED state transition: the device record, the persisted
brightness cache, and the publishes emitted. -/
structure LedStep where
  dev : Dev
  cache : LedCache
  pubs : List LightPub
  deriving DecidableEq, Repr

/-- `updateLightState(snr, brightness)` with the client connected, acting on
the already-ensured device record: clamp to 0–100, suppress an identical
value published less than 2000 ms ago, otherwise record
`lastPublishedBrightness`/`position` (and `lastBrightness` plus the cache
entry when positive) and publish brightness and ON/OFF state. -/
def updateLightState (d : Dev) (cache : LedCache) (snr : String)
    (brightness now : Int) : LedStep :=
  let v := max 0 (min 100 brightness)
  if d.lastPublishedBrightness = some v ∧ now - (d.lastPublishTimestamp.getD 0) < 2000 then
    ⟨d, cache, []⟩
  else
    let d1 := { d with
      lastPublishedBrightness := some v
      lastPublishTimestamp := some now
      position := some v }
    let d2 := if 0 < v then { d1 with lastBrightness := some v } else d1
    let cache' := if 0 < v then ledCacheSet cache snr v else cache
    ⟨d2, cache', [.brightness v, .lightState (0 < v)]⟩

/-- The type-28 branch of the `wms-vb-blind-position-update` callback:
quantize the reported position; while a command is active, release the lock
when the target is reached or after the 15000 ms timeout (updating the light
state in both cases) and ignore intermediate values; otherwise every feedback
is taken over immediately. -/
def startTimedOut (startedAt : Option Int) (now : Int) : Bool :=
  match startedAt with
  | some st => decide (15000 < now - st)
  | none => false

def handleLedFeedback (d : Dev) (cache : LedCache) (snr : String)
    (position : Option Int) (now : Int) : LedStep :=
  match position with
  | none => ⟨d, cache, []⟩
  | some pos =>
      let reported := normalizeWaremaBrightness pos
      let d0 := ensureLedDevice (some d)
      if d0.commandActive then
        if d0.commandTarget = some reported then
          updateLightState { d0 with commandActive := false } cache snr reported now
        else if startTimedOut d0.commandStartTime now then
          updateLightState { d0 with commandActive := false } cache snr reported now
        else ⟨d0, cache, []⟩
      else
        updateLightState d0 cache snr reported now

/-- A control-plane light command: the `light/set` payload (already
upper-cased, as by `message.toUpperCase()`), or the `light/set_brightness`
payload after `parseInt` (`none` models an unparsable payload, i.e. `NaN`). -/
inductive LightCmd
  | set (payload : String)
  | setBrightness (parsed : Option Int)
  deriving DecidableEq, Repr

/-- Target resolution of the `light/set` / `light/set_brightness` handler
(index.js lines 834–845): ON resolves via `lastBrightness ?? ledStateCache[snr]
?? 100`, OFF (and any other payload, since `target` starts at 0) to 0, and a
brightness payload is clamped then quantized.  An unparsable brightness payload
propagates `NaN` through the clamp, and `normalizeWaremaBrightness(NaN)`
returns the initial `best = 100` because every `NaN` comparison is false. -/
def resolveTarget (d : Option Dev) (cache : LedCache) (snr : String)
    (cmd : LightCmd) : Int :=
  match cmd with
  | .set payload =>
      if payload = "ON" then
        ((d.bind (·.lastBrightness)).getD ((ledCacheLookup cache snr).getD 100))
      else 0
  | .setBrightness parsed =>
      match parsed with
      | some n => normalizeWaremaBrightness (max 0 (min 100 n))
      | none => 100

/-- The `light/set` / `light/set_brightness` message handler: resolve the
target, emit it to the stick (not modelled), activate the command lock with
the target and start time, and optimistically update the light state. -/
def handleLightCommand (d : Option Dev) (cache : LedCache) (snr : String)
    (cmd : LightCmd) (now : Int) : LedStep :=
  let target := resolveTarget d cache snr cmd
  let d0 := ensureLedDevice d
  let d1 := { d0 with
    commandActive := true
    commandTarget := some target
    commandStartTime := some now }
  updateLightState d1 cache snr target now

/-- `restoreLedState(snr)` (index.js lines 675–688): only for type-28 records;
pull the persisted brightness into `lastBrightness` when the cache has one,
then republish the light state from `lastBrightness` when defined. -/
def restoreLedState (d : Option Dev) (cache : LedCache) (snr : String)
    (now : Int) : Option Dev × LedCache × List LightPub :=
  match d with
  | none => (none, cache, [])
  | some dev =>
      if dev.typ ≠ "28" then (some dev, cache, [])
      else
        let dev1 := match ledCacheLookup cache snr with
          | some c => { dev with lastBrightness := some c }
          | none => dev
        match dev1.lastBrightness with
        | none => (some dev1, cache, [])
        | some b =>
            let st := updateLightState (ensureLedDevice (some dev1)) cache snr b now
            (some st.dev, st.cache, st.pubs)

/-! ### Cover position feedback (index.js `callback`, cover branch lines
587–618, and src/unnamed/part_005 `updateCoverPosition`) -/

/-- A publish on the per-device cover topics. -/
inductive CoverPub
  | pos (p : Int)
  | state (s : String)
  | tilt (a : Int)
  deriving DecidableEq, Repr

/-- The `["20","21","25"]` branch of `wms-vb-blind-position-update` in
index.js: always republish the raw position; only when `moving === false`
publish a semantic state, with open/closed swapped for type `"20"` (whose
discovery payload declares `position_open: 100`); publish the tilt when an
angle is reported.  No state is derived while moving. -/
def coverFeedbackIndex (devType : String) (position : Option Int)
    (moving : Option Bool) (angle : Option Int) : List CoverPub :=
  (match position with
   | none => []
   | some p =>
      [CoverPub.pos p] ++
      (match moving with
       | some false =>
          if p = 0 then
            [CoverPub.state (if devType = "20" then "closed" else "open")]
          else if p = 100 then
            [CoverPub.state (if devType = "20" then "open" else "closed")]
          else
            [CoverPub.state "stopped"]
       | _ => [])) ++
  (match angle with
   | some a => [CoverPub.tilt a]
   | none => [])

/-- `updateCoverPosition` state derivation (src/unnamed/part_005 lines 9–14):
moving compares against the last known position (defaulting to 0), settled
maps 0 to open, 100 to closed, anything else to stopped. -/
def updateCoverPositionState (lastPos : Option Int) (newPos : Int)
    (moving : Bool) : String :=
  if moving then
    if lastPos.getD 0 < newPos then "closing" else "opening"
  else
    if newPos = 0 then "open" else if newPos = 100 then "closed" else "stopped"

/-! ### Device registration (index.js `registerDevice`, lines 222–445) -/

/-- A device descriptor handed to `registerDevice` (`none` models a missing or
falsy `element`; an empty string is falsy in JS, so it fails the
`!element.snr || !element.type` guard). -/
structure RegElement where
  snr : String
  typ : String
  deriving DecidableEq, Repr

/-- The registry effect of `registerDevice(element)` together with whether a
warning was logged.  An invalid element is rejected with a warning.  Otherwise
the entry is written BEFORE the type switch: line 230 merges `{...old, type}`
and line 236 immediately overwrites it with the defensive fresh `{ type }`;
the "63" case (line 320) and the cover/LED tail (line 430) re-assign the same
fresh record, while the "07"/"09" cases, the ignored-device return and the
unknown-type default leave the line-236 record in place. -/
def registerDevice (ignored : List String) (reg : Registry)
    (element : Option RegElement) : Registry × Bool :=
  match element with
  | none => (reg, true)
  | some el =>
      if el.snr = "" ∨ el.typ = "" then (reg, true)
      else
        let merged := match regLookup reg el.snr with
          | some old => { old with typ := el.typ }
          | none => freshDev el.typ
        let reg1 := regSet reg el.snr merged
        let reg2 := regSet reg1 el.snr (freshDev el.typ)
        if el.typ = "63" then
          (regSet reg2 el.snr (freshDev el.typ), false)
        else if el.typ = "07" ∨ el.typ = "09" then
          (reg2, false)
        else if el.typ = "20" ∨ el.typ = "21" ∨ el.typ = "24" ∨ el.typ = "25" ∨
                el.typ = "28" then
          if el.snr ∈ ignored then (reg2, false)
          else (regSet reg2 el.snr (freshDev el.typ), false)
        else
          (reg2, true)

/-! ### Control-plane message dispatch, registry effect (index.js
`client.on('message')`, lines 765–863) -/

/-- A parsed control-plane command: the sub-topic after `warema/<snr>/`. -/
inductive MqttCommand
  | set (payload : String)
  | setPosition (payload : String)
  | setTilt (payload : String)
  | light (cmd : LightCmd)
  | unknown (command : String)
  deriving Repr

/-- The registry (and LED cache) effect of one control-plane message, plus
whether the handler fell through to the unrecognised-command warning.  The
`set`, `set_position` and `set_tilt` branches only read the registry and emit
stick commands; the light branches run `handleLightCommand`; anything else is
logged and dropped. -/
def handleMessageRegistry (reg : Registry) (cache : LedCache) (snr : String)
    (cmd : MqttCommand) (now : Int) : Registry × LedCache × Bool :=
  match cmd with
  | .set _ => (reg, cache, false)
  | .setPosition _ => (reg, cache, false)
  | .setTilt _ => (reg, cache, false)
  | .light lc =>
      let st := handleLightCommand (regLookup reg snr) cache snr lc now
      (regSet reg snr st.dev, st.cache, false)
  | .unknown _ => (reg, cache, true)

/-! ### Rebind after MQTT connect (index.js `rebindAfterMqttConnect`, lines
457–477, and `trySystemReady`, lines 479–485) -/

/-- The broker's view of retained topics. -/
def Store := String → Option String

/-- Applying one retained publish to the broker state. -/
def pubApply (s : Store) (p : String × String) : Store :=
  fun t => if t = p.1 then some p.2 else s t

/-- Applying a list of retained publishes in order. -/
def applyPubs (s : Store) (l : List (String × String)) : Store :=
  l.foldl pubApply s

/-- The retained publishes emitted by `rebindAfterMqttConnect`: nothing when
the guard fails; otherwise every cached discovery payload, the bridge
availability, and every device's availability.  (`syncAllDeviceStates` only
emits stick position queries, no MQTT publishes.) -/
def rebindPublishes (mqttReady shuttingDown : Bool)
    (discoveryCache : List (String × String)) (reg : Registry) :
    List (String × String) :=
  if !mqttReady || shuttingDown then []
  else
    discoveryCache
      ++ [("warema/bridge/state", "online")]
      ++ reg.map (fun e => ("warema/" ++ e.1 ++ "/availability", "online"))

/-! ## Claim theorems -/

/-- C9: brightness quantization is closed and idempotent — every input `v ≤ 0`
maps to 0, every positive input maps into the fixed step set
`[100,89,78,67,56,45,34,23,12,1]`, and applying `normalizeWaremaBrightness`
twice equals applying it once. -/
theorem C9_quantization_closed_idempotent (v : Int) :
    (v ≤ 0 → normalizeWaremaBrightness v = 0) ∧
    (0 < v → normalizeWaremaBrightness v ∈ WAREMA_LED_STEPS) ∧
    normalizeWaremaBrightness (normalizeWaremaBrightness v) = normalizeWaremaBrightness v := by
  refine ⟨fun hv => ?_, fun hv => normalize_mem_steps v hv, ?_⟩
  · unfold normalizeWaremaBrightness
    simp [hv]
  · by_cases hv : v ≤ 0
    · have h0 : normalizeWaremaBrightness v = 0 := by
        unfold normalizeWaremaBrightness; simp [hv]
      rw [h0]; decide
    · have hv' : 0 < v := by omega
      exact normalize_fixed _ (normalize_mem_steps v hv')

/-- Witness for C9 at concrete inputs 50 and -3. -/
theorem C9_quantization_closed_idempotent_witness :
    normalizeWaremaBrightness 50 ∈ WAREMA_LED_STEPS ∧ normalizeWaremaBrightness (-3) = 0 :=
  ⟨(C9_quantization_closed_idempotent 50).2.1 (by decide),
   (C9_quantization_closed_idempotent (-3)).1 (by decide)⟩

/-- C4: the weather EMA contract — with a prior smoothed value `w` the update
is `w + alpha * (r - w)`; with no prior value the first observation seeds the
smoothed value exactly, both at the level of `updateEMA` and of the
per-metric update inside `updateWeatherEMA`. -/
theorem C4_ema_contract (alpha w r : ℚ) (e : WeatherEntry) :
    updateEMA alpha (some w) r = w + alpha * (r - w) ∧
    updateEMA alpha none r = r ∧
    (applyWeatherData alpha { e with wind := some w }
        ⟨some r, none, none⟩).wind = some (w + alpha * (r - w)) ∧
    (applyWeatherData alpha { e with temp := some w }
        ⟨none, some r, none⟩).temp = some (w + alpha * (r - w)) ∧
    (applyWeatherData alpha { e with lumen := some w }
        ⟨none, none, some r⟩).lumen = some (w + alpha * (r - w)) ∧
    (applyWeatherData alpha freshWeatherEntry ⟨some r, some r, some r⟩)
      = { freshWeatherEntry with wind := some r, temp := some r, lumen := some r } := by
  exact ⟨rfl, rfl, rfl, rfl, rfl, rfl⟩

/-- Equation for `updateRainState` in the differing-and-delay-elapsed case:
the new state is committed and published. -/
theorem updateRain_commit (RON ROFF : Int) (es : Bool) (et now : Int) (b : Bool)
    (hne : b ≠ es) (hd : (if b then RON else ROFF) ≤ now - et) :
    updateRainState RON ROFF (some ⟨es, et⟩) now b = (⟨b, now⟩, [RainPub.rain b]) := by
  simp only [updateRainState]
  rw [if_pos hne, if_pos (by omega)]

/-- Equation for `updateRainState` in the differing-but-too-early case. -/
theorem updateRain_hold (RON ROFF : Int) (es : Bool) (et now : Int) (b : Bool)
    (hne : b ≠ es) (hd : now - et < (if b then RON else ROFF)) :
    updateRainState RON ROFF (some ⟨es, et⟩) now b = (⟨es, et⟩, []) := by
  simp only [updateRainState]
  rw [if_pos hne, if_neg (by omega)]

/-- Equation for `updateRainState` when the reading agrees with the committed
state: only the timestamp is refreshed. -/
theorem updateRain_same (RON ROFF : Int) (es : Bool) (et now : Int) (b : Bool)
    (heq : b = es) :
    updateRainState RON ROFF (some ⟨es, et⟩) now b = (⟨es, now⟩, []) := by
  simp only [updateRainState]
  rw [if_neg (fun h => h heq)]

/-- Lookup of the key just written by `rawCacheSet` after the lazy eviction
pass, provided the fresh timestamp survives the horizon check. -/
theorem rawCacheSet_filter_lookup (c : RawCache) (k : RawKey) (ts now : Int)
    (h : now - ts ≤ 10000) :
    ((rawCacheSet c k ts).filter (fun e => now - e.2 ≤ 10000)).lookup k = some ts := by
  simp [rawCacheSet, List.filter, h, List.lookup]

/-- Equation for `isDuplicateRawMessage` when the key was seen at `ts`. -/
theorem isDup_lookup_some (c : RawCache) (k : RawKey) (now ts : Int)
    (h : c.lookup k = some ts) :
    isDuplicateRawMessage c now k
      = if now - ts < 1000 then (true, c)
        else (false, (rawCacheSet c k now).filter (fun e => now - e.2 ≤ 10000)) := by
  unfold isDuplicateRawMessage
  rw [h]

/-- Equation for `isDuplicateRawMessage` on an unseen key. -/
theorem isDup_lookup_none (c : RawCache) (k : RawKey) (now : Int)
    (h : c.lookup k = none) :
    isDuplicateRawMessage c now k
      = (false, (rawCacheSet c k now).filter (fun e => now - e.2 ≤ 10000)) := by
  unfold isDuplicateRawMessage
  rw [h]

/-- C3: raw-message deduplication — starting from a cache with no entry for
the key, the first observation is accepted and its timestamp recorded; a
second observation within 1000 ms is reported as a duplicate and leaves the
cache untouched; a second observation more than 1000 ms later is accepted
and records its own timestamp. -/
theorem C3_raw_dedup (c : RawCache) (k : RawKey) (t0 t1 u1 : Int)
    (hfresh : c.lookup k = none) :
    ((isDuplicateRawMessage c t0 k).1 = false ∧
      (isDuplicateRawMessage c t0 k).2.lookup k = some t0) ∧
    (t1 - t0 < 1000 →
      (isDuplicateRawMessage (isDuplicateRawMessage c t0 k).2 t1 k).1 = true ∧
      (isDuplicateRawMessage (isDuplicateRawMessage c t0 k).2 t1 k).2
        = (isDuplicateRawMessage c t0 k).2) ∧
    (1000 < u1 - t0 →
      (isDuplicateRawMessage (isDuplicateRawMessage c t0 k).2 u1 k).1 = false ∧
      (isDuplicateRawMessage (isDuplicateRawMessage c t0 k).2 u1 k).2.lookup k
        = some u1) := by
  have hstep : isDuplicateRawMessage c t0 k
      = (false, (rawCacheSet c k t0).filter (fun e => t0 - e.2 ≤ 10000)) :=
    isDup_lookup_none c k t0 hfresh
  have hlk : ((rawCacheSet c k t0).filter (fun e => t0 - e.2 ≤ 10000)).lookup k
      = some t0 :=
    rawCacheSet_filter_lookup c k t0 t0 (by omega)
  refine ⟨⟨by rw [hstep], by rw [hstep]; exact hlk⟩, ?_, ?_⟩
  · intro hlt
    rw [hstep]
    rw [isDup_lookup_some _ k t1 t0 hlk, if_pos hlt]
    exact ⟨rfl, rfl⟩
  · intro hgt
    rw [hstep]
    rw [isDup_lookup_some _ k u1 t0 hlk, if_neg (by omega)]
    exact ⟨rfl, rawCacheSet_filter_lookup _ k u1 u1 (by omega)⟩

/-- Witness for C3 at a concrete key and concrete times 0, 500 and 1500. -/
theorem C3_raw_dedup_witness :
    ((isDuplicateRawMessage [] 0 ("4711", "cmdA")).1 = false ∧
      (isDuplicateRawMessage [] 0 ("4711", "cmdA")).2.lookup ("4711", "cmdA") = some 0) ∧
    ((isDuplicateRawMessage (isDuplicateRawMessage [] 0 ("4711", "cmdA")).2 500
        ("4711", "cmdA")).1 = true ∧
      (isDuplicateRawMessage (isDuplicateRawMessage [] 0 ("4711", "cmdA")).2 500
        ("4711", "cmdA")).2 = (isDuplicateRawMessage [] 0 ("4711", "cmdA")).2) ∧
    ((isDuplicateRawMessage (isDuplicateRawMessage [] 0 ("4711", "cmdA")).2 1500
        ("4711", "cmdA")).1 = false ∧
      (isDuplicateRawMessage (isDuplicateRawMessage [] 0 ("4711", "cmdA")).2 1500
        ("4711", "cmdA")).2.lookup ("4711", "cmdA") = some 1500) := by
  have h := C3_raw_dedup [] ("4711", "cmdA") 0 500 1500 (by decide)
  exact ⟨h.1, h.2.1 (by decide), h.2.2 (by decide)⟩

/-- C2: rain hysteresis — an on→off→on flicker whose readings all fall within
`RAIN_OFF_DELAY` of the last stable reading leaves the committed state `true`
and publishes nothing; and a raw change held for at least the applicable
delay commits the new state and publishes the rain topic exactly once across
the two differing readings. -/
theorem C2_rain_hysteresis (RON ROFF t0 t1 t2 u0 u1 u2 : Int) (s : Bool)
    (ht01 : t0 ≤ t1) (ht12 : t1 ≤ t2) (hfl : t2 - t0 < ROFF)
    (hu01 : u0 ≤ u1) (hsus : (if s then ROFF else RON) ≤ u2 - u1) :
    ((updateRainState RON ROFF
        (some (updateRainState RON ROFF (some ⟨true, t0⟩) t1 false).1) t2 true).1.state
        = true ∧
      (updateRainState RON ROFF (some ⟨true, t0⟩) t1 false).2 = [] ∧
      (updateRainState RON ROFF
        (some (updateRainState RON ROFF (some ⟨true, t0⟩) t1 false).1) t2 true).2 = []) ∧
    ((updateRainState RON ROFF
        (some (updateRainState RON ROFF (some ⟨s, u0⟩) u1 (!s)).1) u2 (!s)).1.state
        = (!s) ∧
      (updateRainState RON ROFF (some ⟨s, u0⟩) u1 (!s)).2 ++
        (updateRainState RON ROFF
          (some (updateRainState RON ROFF (some ⟨s, u0⟩) u1 (!s)).1) u2 (!s)).2
        = [RainPub.rain (!s)]) := by
  have hdelay : (if (!s) then RON else ROFF) = (if s then ROFF else RON) := by
    cases s <;> rfl
  have hne : (!s) ≠ s := Bool.not_ne_self s
  constructor
  · have h1 : updateRainState RON ROFF (some ⟨true, t0⟩) t1 false = (⟨true, t0⟩, []) :=
      updateRain_hold RON ROFF true t0 t1 false (by simp) (by simp only [Bool.false_eq_true, if_false]; omega)
    rw [h1]
    rw [updateRain_same RON ROFF true t0 t2 true rfl]
    exact ⟨rfl, rfl, rfl⟩
  · by_cases hc : (if s then ROFF else RON) ≤ u1 - u0
    · have h1 : updateRainState RON ROFF (some ⟨s, u0⟩) u1 (!s)
          = (⟨!s, u1⟩, [RainPub.rain (!s)]) :=
        updateRain_commit RON ROFF s u0 u1 (!s) hne (by rw [hdelay]; omega)
      rw [h1]
      rw [updateRain_same RON ROFF (!s) u1 u2 (!s) rfl]
      exact ⟨rfl, rfl⟩
    · have h1 : updateRainState RON ROFF (some ⟨s, u0⟩) u1 (!s) = (⟨s, u0⟩, []) :=
        updateRain_hold RON ROFF s u0 u1 (!s) hne (by rw [hdelay]; omega)
      rw [h1]
      have h2 : updateRainState RON ROFF (some ⟨s, u0⟩) u2 (!s)
          = (⟨!s, u2⟩, [RainPub.rain (!s)]) :=
        updateRain_commit RON ROFF s u0 u2 (!s) hne (by rw [hdelay]; omega)
      rw [h2]
      exact ⟨rfl, rfl⟩

/-- Witness for C2: delays 10000/30000, flicker at times 0/1000/2000, and a
sustained off-change at times 0/5000/40000 from committed on. -/
theorem C2_rain_hysteresis_witness :
    ((updateRainState 10000 30000
        (some (updateRainState 10000 30000 (some ⟨true, 0⟩) 1000 false).1) 2000 true).1.state
        = true ∧
      (updateRainState 10000 30000 (some ⟨true, 0⟩) 1000 false).2 = [] ∧
      (updateRainState 10000 30000
        (some (updateRainState 10000 30000 (some ⟨true, 0⟩) 1000 false).1) 2000 true).2 = []) ∧
    ((updateRainState 10000 30000
        (some (updateRainState 10000 30000 (some ⟨true, 0⟩) 5000 (!true)).1) 40000 (!true)).1.state
        = (!true) ∧
      (updateRainState 10000 30000 (some ⟨true, 0⟩) 5000 (!true)).2 ++
        (updateRainState 10000 30000
          (some (updateRainState 10000 30000 (some ⟨true, 0⟩) 5000 (!true)).1) 40000 (!true)).2
        = [RainPub.rain (!true)]) :=
  C2_rain_hysteresis 10000 30000 0 1000 2000 0 5000 40000 true
    (by decide) (by decide) (by decide) (by decide) (by decide)

/-- Evaluating `applyPubs` at a topic is a fold over the publish list starting
from the store's current value. -/
theorem applyPubs_apply (t : String) :
    ∀ (l : List (String × String)) (s : Store),
      applyPubs s l t
        = l.foldl (fun a p => if t = p.1 then some p.2 else a) (s t) := by
  intro l
  induction l with
  | nil => intro s; rfl
  | cons p l ih =>
      intro s
      show applyPubs (pubApply s p) l t = _
      rw [ih]
      rfl

/-- The per-topic fold either ignores its start value (some publish writes the
topic) or returns it unchanged (no publish writes the topic). -/
theorem foldl_write_split (t : String) :
    ∀ (l : List (String × String)) (a : Option String),
      (∀ b, l.foldl (fun x p => if t = p.1 then some p.2 else x) a
          = l.foldl (fun x p => if t = p.1 then some p.2 else x) b)
      ∨ l.foldl (fun x p => if t = p.1 then some p.2 else x) a = a := by
  intro l
  induction l with
  | nil => intro a; exact Or.inr rfl
  | cons p l ih =>
      intro a
      by_cases h : t = p.1
      · refine Or.inl fun b => ?_
        simp only [List.foldl_cons, if_pos h]
      · rcases ih (if t = p.1 then some p.2 else a) with h1 | h1
        · refine Or.inl fun b => ?_
          simp only [List.foldl_cons]
          exact h1 _
        · refine Or.inr ?_
          simp only [List.foldl_cons] at h1 ⊢
          rw [h1, if_neg h]

/-- Replaying any publish list over its own result is a no-op on the store. -/
theorem applyPubs_idem (l : List (String × String)) (s : Store) :
    applyPubs (applyPubs s l) l = applyPubs s l := by
  funext t
  rw [applyPubs_apply t l, applyPubs_apply t l]
  rcases foldl_write_split t l (s t) with h | h
  · exact (h (l.foldl (fun a p => if t = p.1 then some p.2 else a) (s t))).symm
  · rw [h]
    exact h

/-- C6: rebind idempotence — running `rebindAfterMqttConnect` twice in a row
from the same registry and discovery-cache state leaves the broker's retained
topic values exactly as running it once does. -/
theorem C6_rebind_idempotent (mqttReady shuttingDown : Bool)
    (disc : List (String × String)) (reg : Registry) (s : Store) :
    applyPubs (applyPubs s (rebindPublishes mqttReady shuttingDown disc reg))
        (rebindPublishes mqttReady shuttingDown disc reg)
      = applyPubs s (rebindPublishes mqttReady shuttingDown disc reg) :=
  applyPubs_idem (rebindPublishes mqttReady shuttingDown disc reg) s

/-- C5 counterexample: a type-"20" cover (a cover device, registered with a
cover discovery payload) reporting `position = 0, moving = false` publishes
the semantic state "closed", not "open" as the claim requires of every cover
device. -/
theorem C5_counterexample :
    coverFeedbackIndex "20" (some 0) (some false) none
      = [CoverPub.pos 0, CoverPub.state "closed"] ∧
    CoverPub.state "closed" ≠ CoverPub.state "open" := by
  exact ⟨rfl, by decide⟩

/-- C5 (amended): in the main handler the settled mapping 0 to open, 100 to
closed, other to stopped holds for cover types "21" and "25", while type "20"
is inverted (0 to closed, 100 to open, other still stopped); moving
observations publish no semantic state in the main handler; the modular
`updateCoverPosition` variant implements the claimed mapping in full,
including closing for a position above the last known one and opening for a
position below it. -/
theorem C5_cover_derivation_amended (t : String) (p np mp lp q : Int)
    (ht : t = "21" ∨ t = "25")
    (hq0 : q ≠ 0) (hq100 : q ≠ 100)
    (hgt : lp < np) (hlt : mp < lp) :
    (coverFeedbackIndex t (some 0) (some false) none
        = [CoverPub.pos 0, CoverPub.state "open"]) ∧
    (coverFeedbackIndex t (some 100) (some false) none
        = [CoverPub.pos 100, CoverPub.state "closed"]) ∧
    (coverFeedbackIndex t (some q) (some false) none
        = [CoverPub.pos q, CoverPub.state "stopped"]) ∧
    (coverFeedbackIndex "20" (some 0) (some false) none
        = [CoverPub.pos 0, CoverPub.state "closed"]) ∧
    (coverFeedbackIndex "20" (some 100) (some false) none
        = [CoverPub.pos 100, CoverPub.state "open"]) ∧
    (coverFeedbackIndex "20" (some q) (some false) none
        = [CoverPub.pos q, CoverPub.state "stopped"]) ∧
    (coverFeedbackIndex t (some p) (some true) none = [CoverPub.pos p]) ∧
    (updateCoverPositionState (some lp) np true = "closing") ∧
    (updateCoverPositionState (some lp) mp true = "opening") ∧
    (updateCoverPositionState (some lp) 0 false = "open") ∧
    (updateCoverPositionState (some lp) 100 false = "closed") ∧
    (updateCoverPositionState (some lp) q false = "stopped") := by
  have ht20 : t ≠ "20" := by rcases ht with h | h <;> simp [h]
  have hnlt : ¬ (lp < mp) := by omega
  refine ⟨?_, ?_, ?_, rfl, rfl, ?_, rfl, ?_, ?_, rfl, rfl, ?_⟩
  · simp [coverFeedbackIndex, ht20]
  · simp [coverFeedbackIndex, ht20]
  · simp [coverFeedbackIndex, hq0, hq100]
  · simp [coverFeedbackIndex, hq0, hq100]
  · simp [updateCoverPositionState, hgt]
  · simp [updateCoverPositionState, hnlt]
  · simp [updateCoverPositionState, hq0, hq100]

/-- Witness for C5 (amended) at type "21", positions 50/60/40 around a last
known position of 50. -/
theorem C5_cover_derivation_amended_witness :
    coverFeedbackIndex "21" (some 0) (some false) none
      = [CoverPub.pos 0, CoverPub.state "open"] ∧
    updateCoverPositionState (some 50) 60 true = "closing" :=
  ⟨(C5_cover_derivation_amended "21" 77 60 40 50 50 (Or.inl rfl)
      (by decide) (by decide) (by decide) (by decide)).1,
   (C5_cover_derivation_amended "21" 77 60 40 50 50 (Or.inl rfl)
      (by decide) (by decide) (by decide) (by decide)).2.2.2.2.2.2.2.1⟩

/-- Lookup after `regSet` finds the just-written record. -/
theorem regSet_lookup (r : Registry) (snr : String) (d : Dev) :
    (regSet r snr d).lookup snr = some d := by
  simp [regSet, List.lookup]

/-- C7 counterexample: re-registering device "123" (which holds
`position = 50`) with kind "28" resets the record to the fresh `{ type }`
object — the `position` field is cleared rather than preserved. -/
theorem C7_counterexample :
    ((registerDevice [] [("123", { typ := "25", position := some 50 })]
        (some ⟨"123", "28"⟩)).1.lookup "123"
      = some (freshDev "28")) ∧
    (freshDev "28").position ≠ some 50 := by
  exact ⟨rfl, by decide⟩

/-- C7 (amended): `registerDevice` with a valid element always resets the
registry entry for that id to the fresh record containing only the new kind
(clearing position, tilt, lastBrightness and the command lock); for an absent
id this is the fresh-record creation the claim describes. -/
theorem C7_upsert_amended (ignored : List String) (reg : Registry)
    (el : RegElement) (hsnr : el.snr ≠ "") (htyp : el.typ ≠ "") :
    (registerDevice ignored reg (some el)).1.lookup el.snr
      = some (freshDev el.typ) := by
  simp only [registerDevice]
  rw [if_neg (by simp [hsnr, htyp])]
  by_cases h63 : el.typ = "63"
  · rw [if_pos h63]
    exact regSet_lookup _ _ _
  · rw [if_neg h63]
    by_cases h79 : el.typ = "07" ∨ el.typ = "09"
    · rw [if_pos h79]
      exact regSet_lookup _ _ _
    · rw [if_neg h79]
      by_cases hcover : el.typ = "20" ∨ el.typ = "21" ∨ el.typ = "24" ∨
          el.typ = "25" ∨ el.typ = "28"
      · rw [if_pos hcover]
        by_cases hig : el.snr ∈ ignored
        · rw [if_pos hig]
          exact regSet_lookup _ _ _
        · rw [if_neg hig]
          exact regSet_lookup _ _ _
      · rw [if_neg hcover]
        exact regSet_lookup _ _ _

/-- Witness for C7 (amended): registering "123" as kind "28" over an existing
record yields the fresh record. -/
theorem C7_upsert_amended_witness :
    (registerDevice [] [("123", { typ := "25", position := some 50 })]
        (some ⟨"123", "28"⟩)).1.lookup "123"
      = some (freshDev "28") :=
  C7_upsert_amended [] [("123", { typ := "25", position := some 50 })]
    ⟨"123", "28"⟩ (by decide) (by decide)

/-- C8 counterexample: registering a device with the unknown kind "99" over an
empty registry warns and drops the discovery event, but the registry is NOT
left unchanged — an entry `{ type: "99" }` is created, because
`registerDevice` writes the entry before dispatching on the kind. -/
theorem C8_counterexample :
    ((registerDevice [] [] (some ⟨"9", "99"⟩)).1.lookup "9"
        = some (freshDev "99")) ∧
    (registerDevice [] [] (some ⟨"9", "99"⟩)).2 = true ∧
    ([] : Registry).lookup "9" = none := by
  exact ⟨rfl, rfl, rfl⟩

/-- C8 (amended): an unknown command topic is dropped with a warning and
leaves the registry and LED cache unchanged; the cover `set`, `set_position`
and `set_tilt` handlers never write the registry regardless of payload; an
invalid registration element (missing object, empty id or empty kind) warns
and leaves the registry unchanged; but an event with an unknown device kind,
though warned about and dropped, still creates or resets the registry entry
for its id. -/
theorem C8_malformed_amended (reg : Registry) (cache : LedCache)
    (snr cmdName payload : String) (ignored : List String) (el : RegElement)
    (now : Int)
    (hunk : el.typ ∉ (["63", "07", "09", "20", "21", "24", "25", "28"] : List String))
    (hsnr : el.snr ≠ "") (htyp : el.typ ≠ "") :
    (handleMessageRegistry reg cache snr (.unknown cmdName) now
        = (reg, cache, true)) ∧
    (handleMessageRegistry reg cache snr (.set payload) now
        = (reg, cache, false)) ∧
    (handleMessageRegistry reg cache snr (.setPosition payload) now
        = (reg, cache, false)) ∧
    (handleMessageRegistry reg cache snr (.setTilt payload) now
        = (reg, cache, false)) ∧
    (registerDevice ignored reg none = (reg, true)) ∧
    (registerDevice ignored reg (some ⟨"", el.typ⟩) = (reg, true)) ∧
    (registerDevice ignored reg (some ⟨el.snr, ""⟩) = (reg, true)) ∧
    ((registerDevice ignored reg (some el)).2 = true ∧
      (registerDevice ignored reg (some el)).1.lookup el.snr
        = some (freshDev el.typ)) := by
  simp only [List.mem_cons, List.not_mem_nil, or_false, not_or] at hunk
  obtain ⟨h63, h07, h09, h20, h21, h24, h25, h28⟩ := hunk
  refine ⟨rfl, rfl, rfl, rfl, rfl, by simp [registerDevice], by simp [registerDevice], ?_, ?_⟩
  · simp only [registerDevice]
    rw [if_neg (by simp [hsnr, htyp])]
    rw [if_neg h63, if_neg (by simp [h07, h09]),
        if_neg (by simp [h20, h21, h24, h25, h28])]
  · simp only [registerDevice]
    rw [if_neg (by simp [hsnr, htyp])]
    rw [if_neg h63, if_neg (by simp [h07, h09]),
        if_neg (by simp [h20, h21, h24, h25, h28])]
    exact regSet_lookup _ _ _

/-- Witness for C8 (amended) at a concrete unknown kind "99". -/
theorem C8_malformed_amended_witness :
    (handleMessageRegistry [] [] "9" (.unknown "bogus") 0 = ([], [], true)) ∧
    ((registerDevice [] [] (some ⟨"9", "99"⟩)).2 = true ∧
      (registerDevice [] [] (some ⟨"9", "99"⟩)).1.lookup "9"
        = some (freshDev "99")) :=
  ⟨(C8_malformed_amended [] [] "9" "bogus" "x" [] ⟨"9", "99"⟩ 0
      (by decide) (by decide) (by decide)).1,
   (C8_malformed_amended [] [] "9" "bogus" "x" [] ⟨"9", "99"⟩ 0
      (by decide) (by decide) (by decide)).2.2.2.2.2.2.2⟩

/-! ### Positivity invariant for `lastBrightness` -/

/-- Whenever a device record defines `lastBrightness`, the value is positive. -/
def DevBrightPos (d : Dev) : Prop := ∀ b, d.lastBrightness = some b → 0 < b

/-- Every value stored in the persisted LED cache is positive. -/
def CacheBrightPos (c : LedCache) : Prop := ∀ kv ∈ c, 0 < kv.2

theorem cacheLookup_pos :
    ∀ (c : LedCache), CacheBrightPos c → ∀ (snr : String) (v : Int),
      c.lookup snr = some v → 0 < v := by
  intro c
  induction c with
  | nil => intro _ snr v h; simp [List.lookup] at h
  | cons e rest ih =>
      intro hc snr v h
      obtain ⟨k, b⟩ := e
      simp only [List.lookup] at h
      cases he : (snr == k) with
      | true =>
          rw [he] at h
          simp only [Option.some.injEq] at h
          subst h
          exact hc (k, b) (List.mem_cons_self _ _)
      | false =>
          rw [he] at h
          simp only at h
          exact ih (fun kv hkv => hc kv (List.mem_cons_of_mem _ hkv)) snr v h

theorem ledCacheSet_pos (c : LedCache) (snr : String) (v : Int)
    (hc : CacheBrightPos c) (hv : 0 < v) : CacheBrightPos (ledCacheSet c snr v) := by
  intro kv hkv
  simp only [ledCacheSet, List.mem_cons] at hkv
  rcases hkv with h | h
  · subst h; exact hv
  · exact hc kv (List.mem_of_mem_filter h)

theorem ensureLedDevice_pos (d : Option Dev)
    (hd : ∀ x, d = some x → DevBrightPos x) : DevBrightPos (ensureLedDevice d) := by
  cases d with
  | none => intro b hb; simp [ensureLedDevice, freshDev] at hb
  | some x =>
      intro b hb
      simp only [ensureLedDevice] at hb
      exact hd x rfl b hb

theorem updateLightState_pos (d : Dev) (cache : LedCache) (snr : String)
    (b now : Int) (hd : DevBrightPos d) (hc : CacheBrightPos cache) :
    DevBrightPos (updateLightState d cache snr b now).dev ∧
    CacheBrightPos (updateLightState d cache snr b now).cache := by
  simp only [updateLightState]
  by_cases hsup : d.lastPublishedBrightness = some (max 0 (min 100 b)) ∧
      now - (d.lastPublishTimestamp.getD 0) < 2000
  · rw [if_pos hsup]
    exact ⟨hd, hc⟩
  · rw [if_neg hsup]
    by_cases hv : 0 < max 0 (min 100 b)
    · rw [if_pos hv, if_pos hv]
      refine ⟨?_, ledCacheSet_pos cache snr _ hc hv⟩
      intro x hx
      simp only [Option.some.injEq] at hx
      omega
    · rw [if_neg hv, if_neg hv]
      refine ⟨?_, hc⟩
      intro x hx
      exact hd x hx

theorem handleLedFeedback_pos (d : Dev) (cache : LedCache) (snr : String)
    (pos : Option Int) (now : Int) (hd : DevBrightPos d) (hc : CacheBrightPos cache) :
    DevBrightPos (handleLedFeedback d cache snr pos now).dev ∧
    CacheBrightPos (handleLedFeedback d cache snr pos now).cache := by
  cases pos with
  | none => exact ⟨hd, hc⟩
  | some p =>
      have hd0 : DevBrightPos (ensureLedDevice (some d)) :=
        ensureLedDevice_pos (some d) (fun x hx => by cases hx; exact hd)
      have hd0' : DevBrightPos { ensureLedDevice (some d) with commandActive := false } := by
        intro x hx
        exact hd0 x hx
      simp only [handleLedFeedback]
      by_cases hact : (ensureLedDevice (some d)).commandActive
      · rw [if_pos hact]
        by_cases htg : (ensureLedDevice (some d)).commandTarget
            = some (normalizeWaremaBrightness p)
        · rw [if_pos htg]
          exact updateLightState_pos _ cache snr _ now hd0' hc
        · rw [if_neg htg]
          by_cases hto : startTimedOut (ensureLedDevice (some d)).commandStartTime now
          · rw [if_pos hto]
            exact updateLightState_pos _ cache snr _ now hd0' hc
          · rw [if_neg hto]
            exact ⟨hd0, hc⟩
      · rw [if_neg hact]
        exact updateLightState_pos _ cache snr _ now hd0 hc

theorem resolveTargetOn_pos (d : Option Dev) (cache : LedCache) (snr : String)
    (hd : ∀ x, d = some x → DevBrightPos x) (hc : CacheBrightPos cache) :
    0 < resolveTarget d cache snr (.set "ON") := by
  have hgoal : resolveTarget d cache snr (.set "ON")
      = (d.bind (·.lastBrightness)).getD ((ledCacheLookup cache snr).getD 100) := by
    simp [resolveTarget]
  rw [hgoal]
  rcases hb : d.bind (·.lastBrightness) with _ | v
  · rw [Option.getD_none]
    rcases hl : ledCacheLookup cache snr with _ | w
    · simp
    · rw [Option.getD_some]
      exact cacheLookup_pos cache hc snr w hl
  · rw [Option.getD_some]
    cases d with
    | none => simp at hb
    | some x =>
        have hx : x.lastBrightness = some v := by simpa using hb
        exact hd x rfl v hx

theorem restoreLedState_pos (dopt : Option Dev) (cache : LedCache)
    (snr : String) (now : Int)
    (hdopt : ∀ x, dopt = some x → DevBrightPos x) (hc : CacheBrightPos cache) :
    (∀ x, (restoreLedState dopt cache snr now).1 = some x → DevBrightPos x) ∧
    CacheBrightPos (restoreLedState dopt cache snr now).2.1 := by
  cases dopt with
  | none =>
      refine ⟨fun x hx => ?_, hc⟩
      simp [restoreLedState] at hx
  | some dev =>
      by_cases hty : dev.typ ≠ "28"
      · have he : restoreLedState (some dev) cache snr now = (some dev, cache, []) := by
          simp only [restoreLedState]
          rw [if_pos hty]
        rw [he]
        refine ⟨fun x hx => ?_, hc⟩
        cases hx
        exact hdopt dev rfl
      · rcases hl : ledCacheLookup cache snr with _ | c
        · rcases hlb : dev.lastBrightness with _ | bb
          · have he : restoreLedState (some dev) cache snr now = (some dev, cache, []) := by
              simp only [restoreLedState, hl, hlb]
              rw [if_neg hty]
            rw [he]
            refine ⟨fun x hx => ?_, hc⟩
            cases hx
            exact hdopt dev rfl
          · have he : restoreLedState (some dev) cache snr now
                = (some (updateLightState (ensureLedDevice (some dev)) cache snr bb now).dev,
                   (updateLightState (ensureLedDevice (some dev)) cache snr bb now).cache,
                   (updateLightState (ensureLedDevice (some dev)) cache snr bb now).pubs) := by
              simp only [restoreLedState, hl, hlb]
              rw [if_neg hty]
            rw [he]
            have hstep := updateLightState_pos (ensureLedDevice (some dev)) cache snr bb now
              (ensureLedDevice_pos _ (fun z hz => by cases hz; exact hdopt dev rfl)) hc
            refine ⟨fun x hx => ?_, hstep.2⟩
            cases hx
            exact hstep.1
        · have hdev1 : DevBrightPos { dev with lastBrightness := some c } := by
            intro y hy
            simp only [Option.some.injEq] at hy
            have := cacheLookup_pos cache hc snr c hl
            omega
          have he : restoreLedState (some dev) cache snr now
              = (some (updateLightState (ensureLedDevice
                    (some { dev with lastBrightness := some c })) cache snr c now).dev,
                 (updateLightState (ensureLedDevice
                    (some { dev with lastBrightness := some c })) cache snr c now).cache,
                 (updateLightState (ensureLedDevice
                    (some { dev with lastBrightness := some c })) cache snr c now).pubs) := by
            simp only [restoreLedState, hl]
            rw [if_neg hty]
          rw [he]
          have hstep := updateLightState_pos
            (ensureLedDevice (some { dev with lastBrightness := some c })) cache snr c now
            (ensureLedDevice_pos _ (fun z hz => by cases hz; exact hdev1)) hc
          refine ⟨fun x hx => ?_, hstep.2⟩
          cases hx
          exact hstep.1

/-- C10: the `lastBrightness` positivity invariant — the light state update,
the hardware feedback handler, the light command handler and the LED state
restore each preserve positivity of every defined `lastBrightness` (in the
registry record and the persisted cache), and an ON command therefore always
resolves to a strictly positive target. -/
theorem C10_lastBrightness_positive (d : Dev) (dopt : Option Dev)
    (cache : LedCache) (snr : String) (b now : Int) (cmd : LightCmd)
    (pos : Option Int)
    (hd : DevBrightPos d) (hdopt : ∀ x, dopt = some x → DevBrightPos x)
    (hc : CacheBrightPos cache) :
    (DevBrightPos (updateLightState d cache snr b now).dev ∧
      CacheBrightPos (updateLightState d cache snr b now).cache) ∧
    (DevBrightPos (handleLedFeedback d cache snr pos now).dev ∧
      CacheBrightPos (handleLedFeedback d cache snr pos now).cache) ∧
    (DevBrightPos (handleLightCommand dopt cache snr cmd now).dev ∧
      CacheBrightPos (handleLightCommand dopt cache snr cmd now).cache) ∧
    (∀ x, (restoreLedState dopt cache snr now).1 = some x → DevBrightPos x) ∧
    CacheBrightPos (restoreLedState dopt cache snr now).2.1 ∧
    0 < resolveTarget dopt cache snr (.set "ON") := by
  refine ⟨updateLightState_pos d cache snr b now hd hc,
    handleLedFeedback_pos d cache snr pos now hd hc, ?_, ?_, ?_,
    resolveTargetOn_pos dopt cache snr hdopt hc⟩
  · -- command handler: the lock fields do not touch lastBrightness
    simp only [handleLightCommand]
    have h1 : DevBrightPos { ensureLedDevice dopt with
        commandActive := true
        commandTarget := some (resolveTarget dopt cache snr cmd)
        commandStartTime := some now } := by
      intro x hx
      exact ensureLedDevice_pos dopt hdopt x hx
    exact updateLightState_pos _ cache snr _ now h1 hc
  · exact (restoreLedState_pos dopt cache snr now hdopt hc).1
  · exact (restoreLedState_pos dopt cache snr now hdopt hc).2

/-- Witness for C10: fresh device, empty cache, an ON command and a feedback
of 45 at concrete times. -/
theorem C10_lastBrightness_positive_witness :
    0 < resolveTarget none [] "1" (.set "ON") ∧
    DevBrightPos (handleLightCommand none [] "1" (.set "ON") 0).dev :=
  ⟨(C10_lastBrightness_positive (freshDev "28") none [] "1" 50 0 (.set "ON")
      (some 45)
      (fun b hb => by simp [freshDev] at hb)
      (fun x hx => by cases hx)
      (fun kv hkv => by simp at hkv)).2.2.2.2.2,
   (C10_lastBrightness_positive (freshDev "28") none [] "1" 50 0 (.set "ON")
      (some 45)
      (fun b hb => by simp [freshDev] at hb)
      (fun x hx => by cases hx)
      (fun kv hkv => by simp at hkv)).2.2.1.1⟩

/-! ### Echo-loop guard lemmas -/

theorem clamp_normalize (v : Int) :
    max 0 (min 100 (normalizeWaremaBrightness v)) = normalizeWaremaBrightness v := by
  have h1 := normalize_nonneg v
  have h2 := normalize_le_100 v
  omega

/-- The command-lock fields are untouched by `updateLightState`. -/
theorem updateLightState_lock_frame (d : Dev) (cache : LedCache) (snr : String)
    (b now : Int) :
    (updateLightState d cache snr b now).dev.commandActive = d.commandActive ∧
    (updateLightState d cache snr b now).dev.commandTarget = d.commandTarget ∧
    (updateLightState d cache snr b now).dev.commandStartTime = d.commandStartTime := by
  simp only [updateLightState]
  split
  · exact ⟨rfl, rfl, rfl⟩
  · split <;> exact ⟨rfl, rfl, rfl⟩

/-- After `updateLightState`, `lastPublishedBrightness` always holds the
clamped brightness (if suppressed, it already held it). -/
theorem updateLightState_lastPublished (d : Dev) (cache : LedCache)
    (snr : String) (b now : Int) :
    (updateLightState d cache snr b now).dev.lastPublishedBrightness
      = some (max 0 (min 100 b)) := by
  simp only [updateLightState]
  split
  · next h => exact h.1
  · split <;> rfl

/-- The publish timestamp after `updateLightState` never exceeds `now` when it
did not before. -/
theorem updateLightState_ts (d : Dev) (cache : LedCache) (snr : String)
    (b now : Int) (hd : d.lastPublishTimestamp.getD 0 ≤ now) :
    (updateLightState d cache snr b now).dev.lastPublishTimestamp.getD 0 ≤ now := by
  simp only [updateLightState]
  split
  · exact hd
  · split <;> simp

/-- Suppression equation: an identical value published less than 2000 ms ago
short-circuits `updateLightState`. -/
theorem updateLightState_suppressed (d : Dev) (cache : LedCache) (snr : String)
    (b now : Int)
    (hlp : d.lastPublishedBrightness = some (max 0 (min 100 b)))
    (hts : now - d.lastPublishTimestamp.getD 0 < 2000) :
    updateLightState d cache snr b now = ⟨d, cache, []⟩ := by
  simp only [updateLightState]
  rw [if_pos ⟨hlp, hts⟩]

/-- Publish equation: outside the suppression window, `updateLightState`
publishes the clamped brightness and the derived ON/OFF state. -/
theorem updateLightState_publishes (d : Dev) (cache : LedCache) (snr : String)
    (b now : Int)
    (h : ¬ (d.lastPublishedBrightness = some (max 0 (min 100 b)) ∧
            now - d.lastPublishTimestamp.getD 0 < 2000)) :
    (updateLightState d cache snr b now).pubs
      = [LightPub.brightness (max 0 (min 100 b)),
         LightPub.lightState (0 < max 0 (min 100 b))] := by
  simp only [updateLightState]
  rw [if_neg h]

/-- Field equations for the state set up by a `light/set_brightness` command:
the lock is active with the quantized target and start time, the quantized
target has been published (or was already the published value), and the
publish timestamp does not exceed the command time. -/
theorem handleLightCommand_fields (dopt : Option Dev) (cache : LedCache)
    (snr : String) (m t0 : Int)
    (hts0 : (ensureLedDevice dopt).lastPublishTimestamp.getD 0 ≤ t0) :
    (handleLightCommand dopt cache snr (.setBrightness (some m)) t0).dev.commandActive
        = true ∧
    (handleLightCommand dopt cache snr (.setBrightness (some m)) t0).dev.commandTarget
        = some (normalizeWaremaBrightness (max 0 (min 100 m))) ∧
    (handleLightCommand dopt cache snr (.setBrightness (some m)) t0).dev.commandStartTime
        = some t0 ∧
    (handleLightCommand dopt cache snr
        (.setBrightness (some m)) t0).dev.lastPublishedBrightness
        = some (normalizeWaremaBrightness (max 0 (min 100 m))) ∧
    (handleLightCommand dopt cache snr
        (.setBrightness (some m)) t0).dev.lastPublishTimestamp.getD 0 ≤ t0 := by
  have hrt : resolveTarget dopt cache snr (.setBrightness (some m))
      = normalizeWaremaBrightness (max 0 (min 100 m)) := rfl
  simp only [handleLightCommand, hrt]
  refine ⟨?_, ?_, ?_, ?_, ?_⟩
  · rw [(updateLightState_lock_frame _ cache snr _ t0).1]
  · rw [(updateLightState_lock_frame _ cache snr _ t0).2.1]
  · rw [(updateLightState_lock_frame _ cache snr _ t0).2.2]
  · rw [updateLightState_lastPublished]
    rw [clamp_normalize]
  · exact updateLightState_ts _ cache snr _ t0 hts0

/-- A matching quantized feedback during an active command releases the lock;
within the 2000 ms suppression window nothing is republished. -/
theorem handleLedFeedback_match_idle (d : Dev) (cache : LedCache) (snr : String)
    (pos t1 : Int)
    (hact : d.commandActive = true)
    (htg : d.commandTarget = some (normalizeWaremaBrightness pos))
    (hlp : d.lastPublishedBrightness = some (normalizeWaremaBrightness pos))
    (hts : t1 - d.lastPublishTimestamp.getD 0 < 2000) :
    (handleLedFeedback d cache snr (some pos) t1).dev.commandActive = false ∧
    (handleLedFeedback d cache snr (some pos) t1).pubs = [] := by
  simp only [handleLedFeedback, ensureLedDevice]
  rw [if_pos (by simpa using hact), if_pos (by simpa using htg)]
  rw [updateLightState_suppressed _ cache snr _ t1
    (by rw [clamp_normalize]; simpa using hlp) (by simpa using hts)]
  exact ⟨rfl, rfl⟩

/-- Any feedback arriving after the 15000 ms command timeout releases the lock
and is published as authoritative (the suppression window has necessarily
passed as well, given the timestamp bound). -/
theorem handleLedFeedback_release_publishes (d : Dev) (cache : LedCache)
    (snr : String) (pos t1 st : Int)
    (hact : d.commandActive = true)
    (hst : d.commandStartTime = some st) (hto : 15000 < t1 - st)
    (hts : d.lastPublishTimestamp.getD 0 + 2000 ≤ t1) :
    (handleLedFeedback d cache snr (some pos) t1).dev.commandActive = false ∧
    (handleLedFeedback d cache snr (some pos) t1).pubs
      = [LightPub.brightness (normalizeWaremaBrightness pos),
         LightPub.lightState (0 < normalizeWaremaBrightness pos)] := by
  have hnosup : ∀ d' : Dev, d'.lastPublishTimestamp = d.lastPublishTimestamp →
      ¬ (d'.lastPublishedBrightness
            = some (max 0 (min 100 (normalizeWaremaBrightness pos))) ∧
          t1 - d'.lastPublishTimestamp.getD 0 < 2000) := by
    intro d' hts' hcontra
    rw [hts'] at hcontra
    omega
  simp only [handleLedFeedback, ensureLedDevice]
  rw [if_pos (by simpa using hact)]
  by_cases htg : ({ d with typ := "28" } : Dev).commandTarget
      = some (normalizeWaremaBrightness pos)
  · rw [if_pos htg]
    constructor
    · rw [(updateLightState_lock_frame _ cache snr _ t1).1]
    · rw [updateLightState_publishes
          { d with typ := "28", commandActive := false } cache snr _ t1
          (hnosup _ rfl)]
      rw [clamp_normalize]
  · rw [if_neg htg]
    have hok : startTimedOut ({ d with typ := "28" } : Dev).commandStartTime t1
        = true := by
      simp only [startTimedOut]
      rw [show ({ d with typ := "28" } : Dev).commandStartTime = some st from hst]
      simpa using hto
    rw [if_pos hok]
    constructor
    · rw [(updateLightState_lock_frame _ cache snr _ t1).1]
    · rw [updateLightState_publishes
          { d with typ := "28", commandActive := false } cache snr _ t1
          (hnosup _ rfl)]
      rw [clamp_normalize]

/-- C1 counterexample: from a fresh device, the brightness command 50 at time
0 quantizes to target 45 and optimistically publishes 45; the matching
hardware feedback 45 arriving at time 3000 (well inside the 15000 ms command
timeout) releases the lock but REPUBLISHES the already-published 45, because
the duplicate suppression in `updateLightState` only covers a 2000 ms
window — contradicting the claim that no duplicate is published. -/
theorem C1_counterexample :
    ((handleLightCommand none [] "1" (.setBrightness (some 50)) 0).dev.commandTarget
        = some 45) ∧
    ((handleLightCommand none [] "1" (.setBrightness (some 50)) 0).pubs
        = [LightPub.brightness 45, LightPub.lightState true]) ∧
    ((handleLedFeedback
        (handleLightCommand none [] "1" (.setBrightness (some 50)) 0).dev
        (handleLightCommand none [] "1" (.setBrightness (some 50)) 0).cache
        "1" (some 45) 3000).dev.commandActive = false) ∧
    ((handleLedFeedback
        (handleLightCommand none [] "1" (.setBrightness (some 50)) 0).dev
        (handleLightCommand none [] "1" (.setBrightness (some 50)) 0).cache
        "1" (some 45) 3000).pubs
        = [LightPub.brightness 45, LightPub.lightState true]) := by
  exact ⟨by decide, by decide, by decide, by decide⟩

/-- C1 (amended): after a `light/set_brightness` command at `t0` sets the
quantized pending target, (a) a hardware feedback whose quantized value
equals the target and which arrives within the 2000 ms publish-suppression
window releases the guard to idle without republishing the already-published
value, and (b) any feedback arriving more than 15000 ms after the command
forces the guard to idle and is published as authoritative.  Outside the
2000 ms window a matching in-time feedback still releases the guard but
republishes the value (see the counterexample). -/
theorem C1_echo_guard_amended (dopt : Option Dev) (cache : LedCache)
    (snr : String) (m pos pos' t0 t1 t1' : Int)
    (hts0 : (ensureLedDevice dopt).lastPublishTimestamp.getD 0 ≤ t0)
    (hmatch : normalizeWaremaBrightness pos
        = normalizeWaremaBrightness (max 0 (min 100 m)))
    (hwin : t1 - (handleLightCommand dopt cache snr
        (.setBrightness (some m)) t0).dev.lastPublishTimestamp.getD 0 < 2000)
    (hto : 15000 < t1' - t0) :
    ((handleLedFeedback
        (handleLightCommand dopt cache snr (.setBrightness (some m)) t0).dev
        (handleLightCommand dopt cache snr (.setBrightness (some m)) t0).cache
        snr (some pos) t1).dev.commandActive = false ∧
      (handleLedFeedback
        (handleLightCommand dopt cache snr (.setBrightness (some m)) t0).dev
        (handleLightCommand dopt cache snr (.setBrightness (some m)) t0).cache
        snr (some pos) t1).pubs = []) ∧
    ((handleLedFeedback
        (handleLightCommand dopt cache snr (.setBrightness (some m)) t0).dev
        (handleLightCommand dopt cache snr (.setBrightness (some m)) t0).cache
        snr (some pos') t1').dev.commandActive = false ∧
      (handleLedFeedback
        (handleLightCommand dopt cache snr (.setBrightness (some m)) t0).dev
        (handleLightCommand dopt cache snr (.setBrightness (some m)) t0).cache
        snr (some pos') t1').pubs
        = [LightPub.brightness (normalizeWaremaBrightness pos'),
           LightPub.lightState (0 < normalizeWaremaBrightness pos')]) := by
  obtain ⟨hact, htg, hstt, hlp, htsb⟩ :=
    handleLightCommand_fields dopt cache snr m t0 hts0
  constructor
  · exact handleLedFeedback_match_idle _ _ snr pos t1 hact
      (by rw [htg, hmatch]) (by rw [hlp, hmatch]) hwin
  · exact handleLedFeedback_release_publishes _ _ snr pos' t1' t0 hact hstt hto
      (by omega)

/-- Witness for C1 (amended): fresh device, command 50 at time 0 (target 45),
matching feedback 45 at time 1000, and a second-scenario feedback 45 at time
20000. -/
theorem C1_echo_guard_amended_witness :
    ((handleLedFeedback
        (handleLightCommand none [] "1" (.setBrightness (some 50)) 0).dev
        (handleLightCommand none [] "1" (.setBrightness (some 50)) 0).cache
        "1" (some 45) 1000).dev.commandActive = false ∧
      (handleLedFeedback
        (handleLightCommand none [] "1" (.setBrightness (some 50)) 0).dev
        (handleLightCommand none [] "1" (.setBrightness (some 50)) 0).cache
        "1" (some 45) 1000).pubs = []) ∧
    ((handleLedFeedback
        (handleLightCommand none [] "1" (.setBrightness (some 50)) 0).dev
        (handleLightCommand none [] "1" (.setBrightness (some 50)) 0).cache
        "1" (some 45) 20000).dev.commandActive = false ∧
      (handleLedFeedback
        (handleLightCommand none [] "1" (.setBrightness (some 50)) 0).dev
        (handleLightCommand none [] "1" (.setBrightness (some 50)) 0).cache
        "1" (some 45) 20000).pubs
        = [LightPub.brightness (normalizeWaremaBrightness 45),
           LightPub.lightState (0 < normalizeWaremaBrightness 45)]) :=
  C1_echo_guard_amended none [] "1" 50 45 45 0 1000 20000
    (by decide) (by decide) (by decide) (by decide)

end Wms2Mqtt
